import Mathlib

/-!
Shallow embedding of the contact-form worker (`src/src/index.ts`, the
version exporting `ContactPayload` and calling the Turnstile verification
service) and proofs of the specification claims about it.

External effects (the Turnstile verification fetch and the mail-relay
connect/send) are modelled by an oracle (`World`) supplied to the handler;
each effect either returns a value or throws (`Except Unit`).  The handler
additionally returns a `Trace` recording which external calls it made and
with which parameters, so that claims of the form "the relay is never
contacted" are statable.
-/

namespace ContactWorker

/-- JSON values, as produced by `request.json()` / `turnstileRes.json()`. -/
inductive JVal where
  | jnull : JVal
  | jbool : Bool → JVal
  | jnum : Int → JVal
  | jstr : String → JVal
  | jarr : List JVal → JVal
  | jobj : List (String × JVal) → JVal
deriving Repr

/-- Field lookup in a JSON object; on duplicate keys the last occurrence
wins, as in `JSON.parse`. -/
def jlookup (k : String) : List (String × JVal) → Option JVal
  | [] => none
  | (k', v) :: rest =>
    match jlookup k rest with
    | some v' => some v'
    | none => if k' = k then some v else none

/-- JavaScript property access `v.k` on a parsed JSON value: throws
(`.error`) on `null`, yields `undefined` (`.ok none`) on primitives and
arrays and on objects lacking the key. -/
def jsGet : JVal → String → Except Unit (Option JVal)
  | .jnull, _ => .error ()
  | .jobj fields, k => .ok (jlookup k fields)
  | _, _ => .ok none

/-- JavaScript truthiness of a possibly-undefined JSON value
(`undefined`, `null`, `false`, `0`, `""` are falsy). -/
def truthy : Option JVal → Bool
  | none => false
  | some .jnull => false
  | some (.jbool b) => b
  | some (.jnum n) => n != 0
  | some (.jstr s) => s != ""
  | some (.jarr _) => true
  | some (.jobj _) => true

/-- The check `typeof v === 'string'`. -/
def isStr : Option JVal → Bool
  | some (.jstr _) => true
  | _ => false

/-- Extract the string payload (defined on string values, which is the only
place the handler uses it). -/
def asStr : Option JVal → String
  | some (.jstr s) => s
  | _ => ""

/-! ## The email pattern `^[^\s@]+@[^\s@]+\.[^\s@]+$` -/

/-- The JavaScript `\s` character class. -/
def isJsWhitespace (c : Char) : Bool :=
  let n := c.toNat
  n == 0x9 || n == 0xa || n == 0xb || n == 0xc || n == 0xd || n == 0x20 ||
  n == 0xa0 || n == 0x1680 || (Nat.ble 0x2000 n && Nat.ble n 0x200a) ||
  n == 0x2028 || n == 0x2029 || n == 0x202f || n == 0x205f || n == 0x3000 ||
  n == 0xfeff

/-- A character matched by `[^\s@]`. -/
def emailChar (c : Char) : Bool :=
  !(isJsWhitespace c) && !(c == '@')

/-- Split a list at the first occurrence of `c`; `none` if `c` is absent. -/
def splitAtFirst (c : Char) : List Char → Option (List Char × List Char)
  | [] => none
  | x :: xs =>
    if x == c then some ([], xs)
    else
      match splitAtFirst c xs with
      | some (p, q) => some (x :: p, q)
      | none => none

/-- Is there a `'.'` among all elements except the last one? -/
def hasDotBeforeLast : List Char → Bool
  | [] => false
  | [_] => false
  | x :: y :: xs => x == '.' || hasDotBeforeLast (y :: xs)

/-- Executable form of `emailRegex.test s` for the source's pattern:
split at the first `'@'`; the part before must be a nonempty run of
`[^\s@]` characters, the part after must be a nonempty run of `[^\s@]`
characters containing a `'.'` that is neither its first nor its last
character. -/
def emailRegexTest (s : String) : Bool :=
  match splitAtFirst '@' s.data with
  | none => false
  | some (a, d) =>
    !a.isEmpty && a.all emailChar && d.all emailChar &&
    (match d with
     | [] => false
     | _ :: rest => hasDotBeforeLast rest)

/-- The declarative reading of the pattern, in the spec's words: one or more
non-space/non-@ characters, `@`, one or more non-space/non-@ characters,
`.`, one or more non-space/non-@ characters. -/
def EmailPattern (cs : List Char) : Prop :=
  ∃ a b c : List Char,
    a ≠ [] ∧ b ≠ [] ∧ c ≠ [] ∧
    (∀ x ∈ a, emailChar x = true) ∧
    (∀ x ∈ b, emailChar x = true) ∧
    (∀ x ∈ c, emailChar x = true) ∧
    cs = a ++ '@' :: (b ++ '.' :: c)

/-! ## Requests, responses, environment, external world -/

/-- The payload interface exported by the source (`ContactPayload`). -/
structure ContactPayload where
  name : String
  email : String
  message : String
  token : String
deriving Repr

/-- An HTTP response body: `null`, plain text, or a JSON document
(the source serialises the latter with `JSON.stringify`). -/
inductive RBody where
  | empty : RBody
  | text : String → RBody
  | json : JVal → RBody
deriving Repr

/-- The observable parts of a `Response`. -/
structure Response where
  status : Nat
  headers : List (String × String)
  body : RBody
deriving Repr

/-- An inbound request: its method and the result of `await request.json()`
(`.error` models a parse failure throwing). -/
structure Request where
  method : String
  jsonBody : Except Unit JVal

/-- The worker environment (`interface Env`). -/
structure Env where
  TURNSTILE_SECRET : String
  pass : String

/-- Oracle for the two external services: the Turnstile verification call
(fetch + JSON parse, yielding the parsed outcome or throwing) and the
mail-relay `WorkerMailer.connect` and `mailer.send` (succeeding or
throwing). -/
structure World where
  turnstileOutcome : Except Unit JVal
  connectResult : Except Unit Unit
  sendResult : Except Unit Unit

/-- Record of the external calls the handler performed: the form parameters
`(secret, response)` of the Turnstile call, the `(username, password)`
credentials of the relay connect, and whether a send was attempted. -/
structure Trace where
  turnstileCall : Option (String × String)
  connectCreds : Option (String × String)
  sendAttempted : Bool
deriving Repr

def emptyTrace : Trace :=
  { turnstileCall := none, connectCreds := none, sendAttempted := false }

/-- Utility: JSON responses (`jsonResponse` in the source). -/
def jsonResponse (body : JVal) (status : Nat) : Response :=
  { status := status
    headers := [("Content-Type", "application/json")]
    body := .json body }

def errBody (msg : String) : JVal :=
  .jobj [("error", .jstr msg)]

/-- Hardcoded CORS origin of the preflight branch. -/
def allowedOrigin : String := "https://beroea.tech"

/-- Hardcoded mail-relay account (`credentials.username`). -/
def mailRelayUsername : String := "feedback@beroea.tech"

/-- The CORS preflight response (`new Response(null, ...)`, default
status 200). -/
def optionsResponse : Response :=
  { status := 200
    headers := [("Access-Control-Allow-Origin", allowedOrigin),
                ("Access-Control-Allow-Methods", "POST, OPTIONS"),
                ("Access-Control-Allow-Headers", "Content-Type")]
    body := .empty }

/-- The 405 fallback response. -/
def methodNotAllowedResponse : Response :=
  { status := 405, headers := [], body := .text "Method Not Allowed" }

/-- The 200 success response, echoing the parsed body `data`. -/
def successResponse (data : JVal) : Response :=
  { status := 200
    headers := [("Content-Type", "application/json"),
                ("Access-Control-Allow-Origin", "*")]
    body := .json (.jobj [("success", .jbool true), ("received", data)]) }

/-! ## The POST pipeline -/

/-- The validation steps of the POST branch, on the parsed body `data`:
presence/truthiness of `name`/`email`/`message`, string typing of all four
fields, length bounds, email shape.  `.error` is a thrown exception
(property access on `null`), `.inl` an early error response, `.inr` the
validated payload. -/
def validatePost (data : JVal) : Except Unit (Response ⊕ ContactPayload) :=
  match jsGet data "name" with
  | .error e => .error e
  | .ok nameV =>
    match jsGet data "email" with
    | .error e => .error e
    | .ok emailV =>
      match jsGet data "message" with
      | .error e => .error e
      | .ok msgV =>
        if !truthy nameV || !truthy emailV || !truthy msgV then
          .ok (.inl (jsonResponse (errBody "Missing required fields") 400))
        else
          match jsGet data "token" with
          | .error e => .error e
          | .ok tokV =>
            if !isStr nameV || !isStr emailV || !isStr msgV || !isStr tokV then
              .ok (.inl (jsonResponse (errBody "Invalid field types") 400))
            else if (asStr nameV).length > 100 ∨ (asStr msgV).length > 1000 then
              .ok (.inl (jsonResponse (errBody "Input too long") 400))
            else if !emailRegexTest (asStr emailV) then
              .ok (.inl (jsonResponse (errBody "Invalid email format") 400))
            else
              .ok (.inr { name := asStr nameV, email := asStr emailV,
                          message := asStr msgV, token := asStr tokV })

/-- Trace after the Turnstile verification call was issued. -/
def verifyTrace (env : Env) (p : ContactPayload) : Trace :=
  { turnstileCall := some (env.TURNSTILE_SECRET, p.token)
    connectCreds := none, sendAttempted := false }

/-- Trace after `WorkerMailer.connect` was additionally attempted. -/
def connectTrace (env : Env) (p : ContactPayload) : Trace :=
  { verifyTrace env p with connectCreds := some (mailRelayUsername, env.pass) }

/-- Trace after `mailer.send` was additionally attempted. -/
def sendTrace (env : Env) (p : ContactPayload) : Trace :=
  { connectTrace env p with sendAttempted := true }

/-- The body of the POST branch's `try` block: parse, validate, verify the
token with Turnstile, connect to the relay and send.  Returns the response
or a thrown exception, together with the trace of external calls made so
far (the trace is kept even when a later step throws). -/
def postTry (req : Request) (env : Env) (w : World) :
    Except Unit Response × Trace :=
  match req.jsonBody with
  | .error e => (.error e, emptyTrace)
  | .ok data =>
    match validatePost data with
    | .error e => (.error e, emptyTrace)
    | .ok (.inl resp) => (.ok resp, emptyTrace)
    | .ok (.inr p) =>
      match w.turnstileOutcome with
      | .error e => (.error e, verifyTrace env p)
      | .ok outcome =>
        match jsGet outcome "success" with
        | .error e => (.error e, verifyTrace env p)
        | .ok succV =>
          if !truthy succV then
            (.ok (jsonResponse (errBody "Turnstile verification failed") 403),
             verifyTrace env p)
          else
            match w.connectResult with
            | .error e => (.error e, connectTrace env p)
            | .ok _ =>
              match w.sendResult with
              | .error e => (.error e, sendTrace env p)
              | .ok _ => (.ok (successResponse data), sendTrace env p)

/-- The exported `fetch` handler: OPTIONS preflight, POST pipeline wrapped
in `try/catch` (any throw becomes 400 `Bad Request`), 405 otherwise. -/
def fetchHandler (req : Request) (env : Env) (w : World) : Response × Trace :=
  if req.method == "OPTIONS" then
    (optionsResponse, emptyTrace)
  else if req.method == "POST" then
    match postTry req env w with
    | (.ok resp, t) => (resp, t)
    | (.error _, t) => (jsonResponse (errBody "Bad Request") 400, t)
  else
    (methodNotAllowedResponse, emptyTrace)

/-! ## Concrete fixtures (used by the witness theorems) -/

def envA : Env := { TURNSTILE_SECRET := "secret-1", pass := "password-1" }

def envB : Env := { TURNSTILE_SECRET := "secret-2", pass := "password-2" }

def okOutcome : JVal := .jobj [("success", .jbool true)]

def failOutcome : JVal := .jobj [("success", .jbool false)]

/-- A world where verification succeeds and connect/send both succeed. -/
def worldOK : World :=
  { turnstileOutcome := .ok okOutcome, connectResult := .ok (), sendResult := .ok () }

/-- A world where the verification service answers `{success: false}`. -/
def worldFail : World := { worldOK with turnstileOutcome := .ok failOutcome }

def postReq (d : JVal) : Request := { method := "POST", jsonBody := .ok d }

/-- A POST request whose body fails to parse as JSON. -/
def badJsonReq : Request := { method := "POST", jsonBody := .error () }

def optionsReq : Request := { method := "OPTIONS", jsonBody := .error () }

def anaBody : JVal :=
  .jobj [("name", .jstr "Ana"), ("email", .jstr "ana@example.com"),
         ("message", .jstr "Hello"), ("token", .jstr "tok123")]

/-- A body missing `email` and `message`. -/
def missBody : JVal := .jobj [("name", .jstr "Ana")]

def longName : String := String.mk (List.replicate 101 'a')

/-- A body whose `name` has 101 characters. -/
def longBody : JVal :=
  .jobj [("name", .jstr longName), ("email", .jstr "a@b.c"),
         ("message", .jstr "hi"), ("token", .jstr "t")]

/-- A body whose `email` fails the pattern (no dot after the `@`). -/
def bademailBody : JVal :=
  .jobj [("name", .jstr "Ana"), ("email", .jstr "a@b"),
         ("message", .jstr "Hello"), ("token", .jstr "t")]

/-- A body with valid `name`/`email`/`message` but no `token`. -/
def noTokenBody : JVal :=
  .jobj [("name", .jstr "Ana"), ("email", .jstr "ana@example.com"),
         ("message", .jstr "Hello")]

/-- A body with valid `name`/`email`/`message` and an empty-string `token`. -/
def emptyTokenBody : JVal :=
  .jobj [("name", .jstr "Ana"), ("email", .jstr "ana@example.com"),
         ("message", .jstr "Hello"), ("token", .jstr "")]

/-! ## Lemmas about the email pattern -/

theorem splitAtFirst_eq_some (c : Char) (l p q : List Char)
    (h : splitAtFirst c l = some (p, q)) :
    l = p ++ c :: q ∧ ∀ x ∈ p, x ≠ c := by
  induction l generalizing p with
  | nil => simp [splitAtFirst] at h
  | cons x xs ih =>
    rw [splitAtFirst] at h
    by_cases hx : x = c
    · simp [hx] at h
      obtain ⟨hp, hq⟩ := h
      subst hp; subst hq; subst hx
      simp
    · have hbe : (x == c) = false := beq_eq_false_iff_ne.mpr hx
      rw [hbe] at h
      simp only [Bool.false_eq_true, if_false] at h
      cases hs : splitAtFirst c xs with
      | none => rw [hs] at h; simp at h
      | some pq =>
        obtain ⟨p', q'⟩ := pq
        rw [hs] at h
        simp only [Option.some.injEq, Prod.mk.injEq] at h
        obtain ⟨hp, hq⟩ := h
        subst hq
        obtain ⟨h1, h2⟩ := ih p' hs
        subst h1
        constructor
        · rw [← hp]; simp
        · intro y hy
          rw [← hp] at hy
          rcases List.mem_cons.mp hy with h | h
          · subst h; exact hx
          · exact h2 y h

theorem splitAtFirst_append (c : Char) (p q : List Char)
    (hp : ∀ x ∈ p, x ≠ c) :
    splitAtFirst c (p ++ c :: q) = some (p, q) := by
  induction p with
  | nil => simp [splitAtFirst]
  | cons x xs ih =>
    have hx : x ≠ c := hp x (by simp)
    have hbe : (x == c) = false := beq_eq_false_iff_ne.mpr hx
    rw [List.cons_append, splitAtFirst, hbe]
    simp only [Bool.false_eq_true, if_false]
    rw [ih (fun y hy => hp y (by simp [hy]))]

theorem hasDotBeforeLast_iff (l : List Char) :
    hasDotBeforeLast l = true ↔ ∃ b c : List Char, c ≠ [] ∧ l = b ++ '.' :: c := by
  induction l with
  | nil =>
    simp only [hasDotBeforeLast]
    constructor
    · intro h; exact absurd h (by simp)
    · rintro ⟨b, c, hc, hl⟩
      exact absurd hl.symm (by simp)
  | cons x xs ih =>
    cases xs with
    | nil =>
      simp only [hasDotBeforeLast]
      constructor
      · intro h; exact absurd h (by simp)
      · rintro ⟨b, c, hc, hl⟩
        cases b with
        | nil =>
          simp at hl
          exact absurd hl.2 hc
        | cons y ys =>
          simp at hl
    | cons y ys =>
      rw [hasDotBeforeLast]
      rw [Bool.or_eq_true, ih]
      constructor
      · rintro (h | ⟨b, c, hc, hl⟩)
        · exact ⟨[], y :: ys, by simp, by simp [beq_iff_eq.mp h]⟩
        · exact ⟨x :: b, c, hc, by simp [hl]⟩
      · rintro ⟨b, c, hc, hl⟩
        cases b with
        | nil =>
          simp at hl
          obtain ⟨h1, h2⟩ := hl
          exact Or.inl (by simp [h1])
        | cons z zs =>
          simp at hl
          exact Or.inr ⟨zs, c, hc, hl.2⟩

/-- The executable test of `/^[^\s@]+@[^\s@]+\.[^\s@]+$/` accepts exactly
the strings of the declarative shape `EmailPattern`. -/
theorem emailRegexTest_iff (s : String) :
    emailRegexTest s = true ↔ EmailPattern s.data := by
  constructor
  · intro h
    unfold emailRegexTest at h
    cases hsp : splitAtFirst '@' s.data with
    | none => rw [hsp] at h; simp at h
    | some ad =>
      obtain ⟨a, d⟩ := ad
      rw [hsp] at h
      simp only [Bool.and_eq_true] at h
      obtain ⟨⟨⟨hne, hall⟩, hdall⟩, hdot⟩ := h
      cases d with
      | nil => simp at hdot
      | cons x rest =>
        simp only [] at hdot
        rw [hasDotBeforeLast_iff] at hdot
        obtain ⟨b', c', hc', hrest⟩ := hdot
        obtain ⟨hsd, -⟩ := splitAtFirst_eq_some '@' s.data a (x :: rest) hsp
        have hdm : ∀ y ∈ x :: rest, emailChar y = true := List.all_eq_true.mp hdall
        refine ⟨a, x :: b', c', ?_, by simp, hc', List.all_eq_true.mp hall, ?_, ?_, ?_⟩
        · intro hnil
          rw [hnil] at hne
          simp at hne
        · intro y hy
          rcases List.mem_cons.mp hy with h | h
          · exact h ▸ hdm x (by simp)
          · exact hdm y (by simp [hrest, h])
        · intro y hy
          exact hdm y (by simp [hrest, hy])
        · rw [hsd, hrest]
          simp
  · rintro ⟨a, b, c, ha, hb, hc, haE, hbE, hcE, hs⟩
    have hano : ∀ x ∈ a, x ≠ '@' := by
      intro x hx
      have h1 := haE x hx
      rw [emailChar, Bool.and_eq_true] at h1
      have h2 : (x == '@') = false := by
        cases hxe : (x == '@') with
        | false => rfl
        | true => rw [hxe] at h1; simp at h1
      exact beq_eq_false_iff_ne.mp h2
    have hsp : splitAtFirst '@' s.data = some (a, b ++ '.' :: c) := by
      rw [hs]; exact splitAtFirst_append '@' a (b ++ '.' :: c) hano
    unfold emailRegexTest
    rw [hsp]
    simp only [Bool.and_eq_true]
    refine ⟨⟨⟨?_, ?_⟩, ?_⟩, ?_⟩
    · simp [List.isEmpty_iff, ha]
    · exact List.all_eq_true.mpr haE
    · rw [List.all_eq_true]
      intro y hy
      rcases List.mem_append.mp hy with h | h
      · exact hbE y h
      · rcases List.mem_cons.mp h with h | h
        · rw [h]; decide
        · exact hcE y h
    · cases b with
      | nil => exact absurd rfl hb
      | cons hb0 tb =>
        simp only [List.cons_append]
        rw [hasDotBeforeLast_iff]
        exact ⟨tb, c, hc, rfl⟩


theorem validatePost_missing (d : JVal) (nv ev mv : Option JVal)
    (hn : jsGet d "name" = .ok nv)
    (he : jsGet d "email" = .ok ev)
    (hm : jsGet d "message" = .ok mv)
    (hmiss : truthy nv = false ∨ truthy ev = false ∨ truthy mv = false) :
    validatePost d = .ok (.inl (jsonResponse (errBody "Missing required fields") 400)) := by
  unfold validatePost
  rw [hn, he, hm]
  have hc : (!truthy nv || !truthy ev || !truthy mv) = true := by
    rcases hmiss with h | h | h <;> simp [h]
  simp [hc]

theorem validatePost_badtype (d : JVal) (nv ev mv tv : Option JVal)
    (hn : jsGet d "name" = .ok nv)
    (he : jsGet d "email" = .ok ev)
    (hm : jsGet d "message" = .ok mv)
    (ht : jsGet d "token" = .ok tv)
    (htr : truthy nv = true) (her : truthy ev = true) (hmr : truthy mv = true)
    (hbad : isStr nv = false ∨ isStr ev = false ∨ isStr mv = false ∨ isStr tv = false) :
    validatePost d = .ok (.inl (jsonResponse (errBody "Invalid field types") 400)) := by
  unfold validatePost
  rw [hn, he, hm]
  have hc : (!isStr nv || !isStr ev || !isStr mv || !isStr tv) = true := by
    rcases hbad with h | h | h | h <;> simp [h]
  simp [htr, her, hmr, ht, hc]

theorem validatePost_toolong (d : JVal) (ns es ms ts : String)
    (hn : jsGet d "name" = .ok (some (.jstr ns)))
    (he : jsGet d "email" = .ok (some (.jstr es)))
    (hm : jsGet d "message" = .ok (some (.jstr ms)))
    (ht : jsGet d "token" = .ok (some (.jstr ts)))
    (hne : ns ≠ "") (hee : es ≠ "") (hme : ms ≠ "")
    (hlong : ns.length > 100 ∨ ms.length > 1000) :
    validatePost d = .ok (.inl (jsonResponse (errBody "Input too long") 400)) := by
  unfold validatePost
  rw [hn, he, hm, ht]
  simp [truthy, isStr, asStr, hne, hee, hme, hlong]

theorem validatePost_bademail (d : JVal) (ns es ms ts : String)
    (hn : jsGet d "name" = .ok (some (.jstr ns)))
    (he : jsGet d "email" = .ok (some (.jstr es)))
    (hm : jsGet d "message" = .ok (some (.jstr ms)))
    (ht : jsGet d "token" = .ok (some (.jstr ts)))
    (hne : ns ≠ "") (hee : es ≠ "") (hme : ms ≠ "")
    (hnl : ns.length ≤ 100) (hml : ms.length ≤ 1000)
    (hbad : emailRegexTest es = false) :
    validatePost d = .ok (.inl (jsonResponse (errBody "Invalid email format") 400)) := by
  unfold validatePost
  rw [hn, he, hm, ht]
  have hnl' : ¬(ns.length > 100 ∨ ms.length > 1000) := by omega
  simp [truthy, isStr, asStr, hne, hee, hme, hnl', hbad]

theorem validatePost_valid (d : JVal) (ns es ms ts : String)
    (hn : jsGet d "name" = .ok (some (.jstr ns)))
    (he : jsGet d "email" = .ok (some (.jstr es)))
    (hm : jsGet d "message" = .ok (some (.jstr ms)))
    (ht : jsGet d "token" = .ok (some (.jstr ts)))
    (hne : ns ≠ "") (hee : es ≠ "") (hme : ms ≠ "")
    (hnl : ns.length ≤ 100) (hml : ms.length ≤ 1000)
    (hem : emailRegexTest es = true) :
    validatePost d = .ok (.inr ⟨ns, es, ms, ts⟩) := by
  unfold validatePost
  rw [hn, he, hm, ht]
  have hnl' : ¬(ns.length > 100 ∨ ms.length > 1000) := by omega
  simp [truthy, isStr, asStr, hne, hee, hme, hnl', hem]

theorem fetchHandler_post (req : Request) (env : Env) (w : World)
    (hm : req.method = "POST") :
    fetchHandler req env w =
      (match postTry req env w with
       | (.ok resp, t) => (resp, t)
       | (.error _, t) => (jsonResponse (errBody "Bad Request") 400, t)) := by
  unfold fetchHandler
  rw [hm]
  rfl

theorem postTry_inl (req : Request) (env : Env) (w : World) (d : JVal) (r : Response)
    (hb : req.jsonBody = .ok d)
    (hv : validatePost d = .ok (.inl r)) :
    postTry req env w = (.ok r, emptyTrace) := by
  unfold postTry
  simp only [hb, hv]

theorem postTry_403 (req : Request) (env : Env) (w : World) (d : JVal)
    (p : ContactPayload) (oc : JVal) (sv : Option JVal)
    (hb : req.jsonBody = .ok d)
    (hv : validatePost d = .ok (.inr p))
    (hto : w.turnstileOutcome = .ok oc)
    (hs : jsGet oc "success" = .ok sv)
    (hf : truthy sv = false) :
    postTry req env w =
      (.ok (jsonResponse (errBody "Turnstile verification failed") 403),
       verifyTrace env p) := by
  unfold postTry
  simp only [hb, hv, hto, hs]
  simp [hf]

theorem postTry_success (req : Request) (env : Env) (w : World) (d : JVal)
    (p : ContactPayload) (oc : JVal) (sv : Option JVal)
    (hb : req.jsonBody = .ok d)
    (hv : validatePost d = .ok (.inr p))
    (hto : w.turnstileOutcome = .ok oc)
    (hs : jsGet oc "success" = .ok sv)
    (htr : truthy sv = true)
    (hc : w.connectResult = .ok ())
    (hsd : w.sendResult = .ok ()) :
    postTry req env w = (.ok (successResponse d), sendTrace env p) := by
  unfold postTry
  simp only [hb, hv, hto, hs]
  simp [htr, hc, hsd]

theorem fetchHandler_post_ok (req : Request) (env : Env) (w : World)
    (r : Response) (t : Trace)
    (hm : req.method = "POST")
    (hpt : postTry req env w = (.ok r, t)) :
    fetchHandler req env w = (r, t) := by
  rw [fetchHandler_post req env w hm, hpt]

theorem fetchHandler_post_err (req : Request) (env : Env) (w : World)
    (e : Unit) (t : Trace)
    (hm : req.method = "POST")
    (hpt : postTry req env w = (.error e, t)) :
    fetchHandler req env w = (jsonResponse (errBody "Bad Request") 400, t) := by
  rw [fetchHandler_post req env w hm, hpt]

theorem validatePost_cases (d : JVal) :
    (∃ e, validatePost d = .error e) ∨
    validatePost d = .ok (.inl (jsonResponse (errBody "Missing required fields") 400)) ∨
    validatePost d = .ok (.inl (jsonResponse (errBody "Invalid field types") 400)) ∨
    validatePost d = .ok (.inl (jsonResponse (errBody "Input too long") 400)) ∨
    validatePost d = .ok (.inl (jsonResponse (errBody "Invalid email format") 400)) ∨
    (∃ p, validatePost d = .ok (.inr p)) := by
  unfold validatePost
  repeat' split
  all_goals simp


theorem postTry_master (req : Request) (env : Env) (w : World) :
    (∃ e, postTry req env w = (.error e, emptyTrace)) ∨
    (∃ r, postTry req env w = (.ok r, emptyTrace) ∧
      (r = jsonResponse (errBody "Missing required fields") 400 ∨
       r = jsonResponse (errBody "Invalid field types") 400 ∨
       r = jsonResponse (errBody "Input too long") 400 ∨
       r = jsonResponse (errBody "Invalid email format") 400)) ∨
    (∃ p,
      (∃ e, postTry req env w = (.error e, verifyTrace env p)) ∨
      postTry req env w =
        (.ok (jsonResponse (errBody "Turnstile verification failed") 403),
         verifyTrace env p) ∨
      (∃ e, postTry req env w = (.error e, connectTrace env p)) ∨
      (∃ e, postTry req env w = (.error e, sendTrace env p)) ∨
      (∃ d, postTry req env w = (.ok (successResponse d), sendTrace env p))) := by
  cases hb : req.jsonBody with
  | error e => exact Or.inl ⟨e, by unfold postTry; simp [hb]⟩
  | ok data =>
    rcases validatePost_cases data with ⟨e, hv⟩ | hv | hv | hv | hv | ⟨p, hv⟩
    · exact Or.inl ⟨e, by unfold postTry; simp [hb, hv]⟩
    · exact Or.inr (Or.inl ⟨jsonResponse (errBody "Missing required fields") 400,
        by unfold postTry; simp [hb, hv], by simp⟩)
    · exact Or.inr (Or.inl ⟨jsonResponse (errBody "Invalid field types") 400,
        by unfold postTry; simp [hb, hv], by simp⟩)
    · exact Or.inr (Or.inl ⟨jsonResponse (errBody "Input too long") 400,
        by unfold postTry; simp [hb, hv], by simp⟩)
    · exact Or.inr (Or.inl ⟨jsonResponse (errBody "Invalid email format") 400,
        by unfold postTry; simp [hb, hv], by simp⟩)
    · refine Or.inr (Or.inr ⟨p, ?_⟩)
      cases hto : w.turnstileOutcome with
      | error e => exact Or.inl ⟨e, by unfold postTry; simp [hb, hv, hto]⟩
      | ok outcome =>
        cases hs : jsGet outcome "success" with
        | error e => exact Or.inl ⟨e, by unfold postTry; simp [hb, hv, hto, hs]⟩
        | ok succV =>
          cases hsucc : truthy succV with
          | false =>
            exact Or.inr (Or.inl (by unfold postTry; simp [hb, hv, hto, hs, hsucc]))
          | true =>
            cases hc : w.connectResult with
            | error e =>
              exact Or.inr (Or.inr (Or.inl ⟨e,
                by unfold postTry; simp [hb, hv, hto, hs, hsucc, hc]⟩))
            | ok u =>
              cases hsd : w.sendResult with
              | error e =>
                exact Or.inr (Or.inr (Or.inr (Or.inl ⟨e,
                  by unfold postTry; simp [hb, hv, hto, hs, hsucc, hc, hsd]⟩)))
              | ok u2 =>
                exact Or.inr (Or.inr (Or.inr (Or.inr ⟨data,
                  by unfold postTry; simp [hb, hv, hto, hs, hsucc, hc, hsd]⟩)))


theorem fetchHandler_options (req : Request) (env : Env) (w : World)
    (h : req.method = "OPTIONS") :
    fetchHandler req env w = (optionsResponse, emptyTrace) := by
  unfold fetchHandler
  simp [h]

theorem fetchHandler_other (req : Request) (env : Env) (w : World)
    (h1 : req.method ≠ "OPTIONS") (h2 : req.method ≠ "POST") :
    fetchHandler req env w = (methodNotAllowedResponse, emptyTrace) := by
  unfold fetchHandler
  simp [h1, h2]

theorem fetchHandler_resp_cases (req : Request) (env : Env) (w : World) :
    (req.method = "OPTIONS" ∧ (fetchHandler req env w).1 = optionsResponse) ∨
    (fetchHandler req env w).1 = jsonResponse (errBody "Missing required fields") 400 ∨
    (fetchHandler req env w).1 = jsonResponse (errBody "Invalid field types") 400 ∨
    (fetchHandler req env w).1 = jsonResponse (errBody "Input too long") 400 ∨
    (fetchHandler req env w).1 = jsonResponse (errBody "Invalid email format") 400 ∨
    (fetchHandler req env w).1 = jsonResponse (errBody "Turnstile verification failed") 403 ∨
    (fetchHandler req env w).1 = jsonResponse (errBody "Bad Request") 400 ∨
    (∃ d, (fetchHandler req env w).1 = successResponse d) ∨
    (fetchHandler req env w).1 = methodNotAllowedResponse := by
  by_cases hopt : req.method = "OPTIONS"
  · exact Or.inl ⟨hopt, by rw [fetchHandler_options req env w hopt]⟩
  by_cases hpost : req.method = "POST"
  · rcases postTry_master req env w with ⟨e, hpt⟩ | ⟨r, hpt, hr⟩ | ⟨p, hcase⟩
    · rw [fetchHandler_post_err req env w e emptyTrace hpost hpt]
      simp
    · rw [fetchHandler_post_ok req env w r emptyTrace hpost hpt]
      rcases hr with h | h | h | h <;> simp [h]
    · rcases hcase with ⟨e, hpt⟩ | hpt | ⟨e, hpt⟩ | ⟨e, hpt⟩ | ⟨d, hpt⟩
      · rw [fetchHandler_post_err req env w e _ hpost hpt]; simp
      · rw [fetchHandler_post_ok req env w _ _ hpost hpt]; simp
      · rw [fetchHandler_post_err req env w e _ hpost hpt]; simp
      · rw [fetchHandler_post_err req env w e _ hpost hpt]; simp
      · rw [fetchHandler_post_ok req env w _ _ hpost hpt]
        exact Or.inr (Or.inr (Or.inr (Or.inr (Or.inr (Or.inr (Or.inr (Or.inl ⟨d, rfl⟩)))))))
  · rw [fetchHandler_other req env w hopt hpost]
    simp

theorem fetchHandler_trace_cases (req : Request) (env : Env) (w : World) :
    (fetchHandler req env w).2 = emptyTrace ∨
    (∃ p, (fetchHandler req env w).2 = verifyTrace env p) ∨
    (∃ p, (fetchHandler req env w).2 = connectTrace env p) ∨
    (∃ p, (fetchHandler req env w).2 = sendTrace env p) := by
  by_cases hopt : req.method = "OPTIONS"
  · rw [fetchHandler_options req env w hopt]
    exact Or.inl rfl
  by_cases hpost : req.method = "POST"
  · rcases postTry_master req env w with ⟨e, hpt⟩ | ⟨r, hpt, hr⟩ | ⟨p, hcase⟩
    · rw [fetchHandler_post_err req env w e emptyTrace hpost hpt]
      exact Or.inl rfl
    · rw [fetchHandler_post_ok req env w r emptyTrace hpost hpt]
      exact Or.inl rfl
    · rcases hcase with ⟨e, hpt⟩ | hpt | ⟨e, hpt⟩ | ⟨e, hpt⟩ | ⟨d, hpt⟩
      · rw [fetchHandler_post_err req env w e _ hpost hpt]
        exact Or.inr (Or.inl ⟨p, rfl⟩)
      · rw [fetchHandler_post_ok req env w _ _ hpost hpt]
        exact Or.inr (Or.inl ⟨p, rfl⟩)
      · rw [fetchHandler_post_err req env w e _ hpost hpt]
        exact Or.inr (Or.inr (Or.inl ⟨p, rfl⟩))
      · rw [fetchHandler_post_err req env w e _ hpost hpt]
        exact Or.inr (Or.inr (Or.inr ⟨p, rfl⟩))
      · rw [fetchHandler_post_ok req env w _ _ hpost hpt]
        exact Or.inr (Or.inr (Or.inr ⟨p, rfl⟩))
  · rw [fetchHandler_other req env w hopt hpost]
    exact Or.inl rfl

theorem fetchHandler_trace_post (req : Request) (env : Env) (w : World)
    (hmq : req.method = "POST") :
    (fetchHandler req env w).2 = (postTry req env w).2 := by
  rw [fetchHandler_post req env w hmq]
  rcases hpt : postTry req env w with ⟨x, t⟩
  cases x <;> simp

theorem postTry_turnstileCall (req : Request) (env : Env) (w : World)
    (d : JVal) (p : ContactPayload)
    (hb : req.jsonBody = .ok d)
    (hv : validatePost d = .ok (.inr p)) :
    (postTry req env w).2.turnstileCall = some (env.TURNSTILE_SECRET, p.token) := by
  unfold postTry
  simp only [hb, hv]
  repeat' split
  all_goals rfl

/-! ## The claims -/

/-- Claim C2: for every request and every behavior of the two external
calls (each returning normally or throwing), the handler's status code is
one of 200, 400, 403, 405; no 5xx is ever produced. -/
theorem claim_c2 (req : Request) (env : Env) (w : World) :
    (fetchHandler req env w).1.status = 200 ∨
    (fetchHandler req env w).1.status = 400 ∨
    (fetchHandler req env w).1.status = 403 ∨
    (fetchHandler req env w).1.status = 405 := by
  rcases fetchHandler_resp_cases req env w with
    ⟨-, h⟩ | h | h | h | h | h | h | ⟨d, h⟩ | h <;>
    rw [h] <;>
    simp [jsonResponse, optionsResponse, methodNotAllowedResponse, successResponse]

/-- Claim C3: for every POST request, if the processing pipeline (body
parse, validation, verification call, relay connect/send) throws, the
outer catch returns HTTP 400 with body `{error: "Bad Request"}`,
regardless of the cause. -/
theorem claim_c3 (req : Request) (env : Env) (w : World) (e : Unit)
    (hmq : req.method = "POST")
    (he : (postTry req env w).1 = .error e) :
    (fetchHandler req env w).1 = jsonResponse (errBody "Bad Request") 400 := by
  rcases hpt : postTry req env w with ⟨x, t⟩
  rw [hpt] at he
  simp at he
  subst he
  rw [fetchHandler_post_err req env w e t hmq hpt]

/-- Witness for C3 at a POST request whose JSON body fails to parse. -/
theorem claim_c3_witness :
    (fetchHandler badJsonReq envA worldOK).1 = jsonResponse (errBody "Bad Request") 400 :=
  claim_c3 badJsonReq envA worldOK () rfl rfl

/-- Claim C5: a POST body missing (or holding a falsy value for) any of
`name`/`email`/`message` yields HTTP 400 `{error: "Missing required
fields"}` and no external call is made. -/
theorem claim_c5 (req : Request) (env : Env) (w : World) (d : JVal)
    (nv ev mv : Option JVal)
    (hmq : req.method = "POST") (hb : req.jsonBody = .ok d)
    (hn : jsGet d "name" = .ok nv)
    (he : jsGet d "email" = .ok ev)
    (hmsg : jsGet d "message" = .ok mv)
    (hmiss : truthy nv = false ∨ truthy ev = false ∨ truthy mv = false) :
    (fetchHandler req env w).1 = jsonResponse (errBody "Missing required fields") 400 ∧
    (fetchHandler req env w).2 = emptyTrace := by
  have hv := validatePost_missing d nv ev mv hn he hmsg hmiss
  have hpt := postTry_inl req env w d _ hb hv
  rw [fetchHandler_post_ok req env w _ _ hmq hpt]
  exact ⟨rfl, rfl⟩

/-- Witness for C5 at a body containing only `name`. -/
theorem claim_c5_witness :
    (fetchHandler (postReq missBody) envA worldOK).1 =
      jsonResponse (errBody "Missing required fields") 400 ∧
    (fetchHandler (postReq missBody) envA worldOK).2 = emptyTrace :=
  claim_c5 (postReq missBody) envA worldOK missBody
    (some (.jstr "Ana")) none none rfl rfl rfl rfl rfl (Or.inr (Or.inl rfl))

/-- Claim C6: string fields with `name` longer than 100 or `message`
longer than 1000 characters (all else valid) yield HTTP 400
`{error: "Input too long"}` and no external call is made. -/
theorem claim_c6 (req : Request) (env : Env) (w : World) (d : JVal)
    (ns es ms ts : String)
    (hmq : req.method = "POST") (hb : req.jsonBody = .ok d)
    (hn : jsGet d "name" = .ok (some (.jstr ns)))
    (he : jsGet d "email" = .ok (some (.jstr es)))
    (hmsg : jsGet d "message" = .ok (some (.jstr ms)))
    (ht : jsGet d "token" = .ok (some (.jstr ts)))
    (hne : ns ≠ "") (hee : es ≠ "") (hme : ms ≠ "")
    (hlong : ns.length > 100 ∨ ms.length > 1000) :
    (fetchHandler req env w).1 = jsonResponse (errBody "Input too long") 400 ∧
    (fetchHandler req env w).2 = emptyTrace := by
  have hv := validatePost_toolong d ns es ms ts hn he hmsg ht hne hee hme hlong
  have hpt := postTry_inl req env w d _ hb hv
  rw [fetchHandler_post_ok req env w _ _ hmq hpt]
  exact ⟨rfl, rfl⟩

/-- Witness for C6 at a body whose `name` has 101 characters. -/
theorem claim_c6_witness :
    (fetchHandler (postReq longBody) envA worldOK).1 =
      jsonResponse (errBody "Input too long") 400 ∧
    (fetchHandler (postReq longBody) envA worldOK).2 = emptyTrace :=
  claim_c6 (postReq longBody) envA worldOK longBody longName "a@b.c" "hi" "t"
    rfl rfl rfl rfl rfl rfl (by decide) (by decide) (by decide)
    (Or.inl (by decide))

/-- Claim C1: for every POST whose JSON body has non-empty string
`name`/`email`/`message` within the length bounds, an email matching the
accepted pattern and a string `token`, if the verification outcome has a
truthy `success` flag and the relay connect and send succeed, the handler
returns HTTP 200 whose body is `{success: true, received: <the parsed
body>}`, echoing the exact parsed input object. -/
theorem claim_c1 (req : Request) (env : Env) (w : World) (d oc : JVal)
    (sv : Option JVal) (ns es ms ts : String)
    (hmq : req.method = "POST") (hb : req.jsonBody = .ok d)
    (hn : jsGet d "name" = .ok (some (.jstr ns)))
    (he : jsGet d "email" = .ok (some (.jstr es)))
    (hmsg : jsGet d "message" = .ok (some (.jstr ms)))
    (ht : jsGet d "token" = .ok (some (.jstr ts)))
    (hne : ns ≠ "") (hee : es ≠ "") (hme : ms ≠ "")
    (hnl : ns.length ≤ 100) (hml : ms.length ≤ 1000)
    (hem : emailRegexTest es = true)
    (hto : w.turnstileOutcome = .ok oc)
    (hs : jsGet oc "success" = .ok sv)
    (htr : truthy sv = true)
    (hc : w.connectResult = .ok ())
    (hsd : w.sendResult = .ok ()) :
    (fetchHandler req env w).1.status = 200 ∧
    (fetchHandler req env w).1.body =
      .json (.jobj [("success", .jbool true), ("received", d)]) := by
  have hv := validatePost_valid d ns es ms ts hn he hmsg ht hne hee hme hnl hml hem
  have hpt := postTry_success req env w d ⟨ns, es, ms, ts⟩ oc sv hb hv hto hs htr hc hsd
  rw [fetchHandler_post_ok req env w _ _ hmq hpt]
  exact ⟨rfl, rfl⟩

/-- Witness for C1 at the spec's example submission. -/
theorem claim_c1_witness :
    (fetchHandler (postReq anaBody) envA worldOK).1.status = 200 ∧
    (fetchHandler (postReq anaBody) envA worldOK).1.body =
      .json (.jobj [("success", .jbool true), ("received", anaBody)]) :=
  claim_c1 (postReq anaBody) envA worldOK anaBody okOutcome
    (some (.jbool true)) "Ana" "ana@example.com" "Hello" "tok123"
    rfl rfl rfl rfl rfl rfl (by decide) (by decide) (by decide)
    (by decide) (by decide) (by decide) rfl rfl rfl rfl rfl

/-- Claim C4: for every POST that passes all validation, a verification
outcome with a falsy `success` flag yields HTTP 403 `{error: "Turnstile
verification failed"}` and the relay connect/send is never attempted. -/
theorem claim_c4 (req : Request) (env : Env) (w : World) (d oc : JVal)
    (p : ContactPayload) (sv : Option JVal)
    (hmq : req.method = "POST") (hb : req.jsonBody = .ok d)
    (hv : validatePost d = .ok (.inr p))
    (hto : w.turnstileOutcome = .ok oc)
    (hs : jsGet oc "success" = .ok sv)
    (hf : truthy sv = false) :
    (fetchHandler req env w).1 =
      jsonResponse (errBody "Turnstile verification failed") 403 ∧
    (fetchHandler req env w).2.connectCreds = none ∧
    (fetchHandler req env w).2.sendAttempted = false := by
  have hpt := postTry_403 req env w d p oc sv hb hv hto hs hf
  rw [fetchHandler_post_ok req env w _ _ hmq hpt]
  exact ⟨rfl, rfl, rfl⟩

/-- Witness for C4 at a valid submission rejected by the verification
service. -/
theorem claim_c4_witness :
    (fetchHandler (postReq anaBody) envA worldFail).1 =
      jsonResponse (errBody "Turnstile verification failed") 403 ∧
    (fetchHandler (postReq anaBody) envA worldFail).2.connectCreds = none ∧
    (fetchHandler (postReq anaBody) envA worldFail).2.sendAttempted = false :=
  claim_c4 (postReq anaBody) envA worldFail anaBody failOutcome
    ⟨"Ana", "ana@example.com", "Hello", "tok123"⟩ (some (.jbool false))
    rfl rfl rfl rfl rfl rfl

/-- Claim C7: the email validity check accepts a string exactly when it
decomposes as one or more non-space/non-@ characters, `@`, one or more
non-space/non-@ characters, `.`, one or more non-space/non-@ characters;
and a POST with otherwise valid fields whose email fails the check
returns HTTP 400 `{error: "Invalid email format"}`. -/
theorem claim_c7 :
    (∀ s : String, emailRegexTest s = true ↔ EmailPattern s.data) ∧
    (∀ (req : Request) (env : Env) (w : World) (d : JVal) (ns es ms ts : String),
      req.method = "POST" → req.jsonBody = .ok d →
      jsGet d "name" = .ok (some (.jstr ns)) →
      jsGet d "email" = .ok (some (.jstr es)) →
      jsGet d "message" = .ok (some (.jstr ms)) →
      jsGet d "token" = .ok (some (.jstr ts)) →
      ns ≠ "" → es ≠ "" → ms ≠ "" →
      ns.length ≤ 100 → ms.length ≤ 1000 →
      emailRegexTest es = false →
      (fetchHandler req env w).1 = jsonResponse (errBody "Invalid email format") 400) := by
  constructor
  · exact emailRegexTest_iff
  · intro req env w d ns es ms ts hmq hb hn he hmsg ht hne hee hme hnl hml hbad
    have hv := validatePost_bademail d ns es ms ts hn he hmsg ht hne hee hme hnl hml hbad
    have hpt := postTry_inl req env w d _ hb hv
    rw [fetchHandler_post_ok req env w _ _ hmq hpt]

/-- Witness for C7: the pattern accepts `ana@example.com`, rejects the
spec's examples, and the handler rejects a submission whose email is
`a@b`. -/
theorem claim_c7_witness :
    (emailRegexTest "ana@example.com" = true ∧ EmailPattern "ana@example.com".data) ∧
    emailRegexTest "no-at-sign" = false ∧
    emailRegexTest "a@b" = false ∧
    emailRegexTest "@b.com" = false ∧
    (fetchHandler (postReq bademailBody) envA worldOK).1 =
      jsonResponse (errBody "Invalid email format") 400 :=
  ⟨⟨by decide, (claim_c7.1 "ana@example.com").mp (by decide)⟩,
   by decide, by decide, by decide,
   claim_c7.2 (postReq bademailBody) envA worldOK bademailBody
     "Ana" "a@b" "Hello" "t" rfl rfl rfl rfl rfl rfl
     (by decide) (by decide) (by decide) (by decide) (by decide) (by decide)⟩

/-- Counterexample for C8: the preflight `Access-Control-Allow-Origin`
value and the relay username are fixed literals, not environment-sourced:
two environments differing in both fields produce the identical preflight
response with origin `https://beroea.tech`, and both connect to the relay
as `feedback@beroea.tech`; only the password (and the Turnstile secret)
comes from the environment. -/
theorem claim_c8_counterexample :
    envA.TURNSTILE_SECRET ≠ envB.TURNSTILE_SECRET ∧ envA.pass ≠ envB.pass ∧
    fetchHandler optionsReq envA worldOK = fetchHandler optionsReq envB worldOK ∧
    (fetchHandler optionsReq envA worldOK).1.headers =
      [("Access-Control-Allow-Origin", "https://beroea.tech"),
       ("Access-Control-Allow-Methods", "POST, OPTIONS"),
       ("Access-Control-Allow-Headers", "Content-Type")] ∧
    (fetchHandler (postReq anaBody) envA worldOK).2.connectCreds =
      some ("feedback@beroea.tech", "password-1") ∧
    (fetchHandler (postReq anaBody) envB worldOK).2.connectCreds =
      some ("feedback@beroea.tech", "password-2") :=
  ⟨by decide, by decide, rfl, rfl, rfl, rfl⟩

/-- Claim C8 (amended): the environment-sourced configuration is exactly
the Turnstile secret and the relay password; the preflight CORS origin
and the relay username are the hardcoded literals `https://beroea.tech`
and `feedback@beroea.tech`, independent of the environment. -/
theorem claim_c8_amended (req : Request) (env : Env) (w : World) :
    (req.method = "OPTIONS" → (fetchHandler req env w).1 = optionsResponse) ∧
    (∀ s t, (fetchHandler req env w).2.turnstileCall = some (s, t) →
      s = env.TURNSTILE_SECRET) ∧
    (∀ u pw, (fetchHandler req env w).2.connectCreds = some (u, pw) →
      u = mailRelayUsername ∧ pw = env.pass) := by
  refine ⟨fun hopt => by rw [fetchHandler_options req env w hopt], ?_, ?_⟩
  · intro s t hcall
    rcases fetchHandler_trace_cases req env w with h | ⟨p, h⟩ | ⟨p, h⟩ | ⟨p, h⟩
    · rw [h] at hcall; simp [emptyTrace] at hcall
    · rw [h] at hcall
      simp [verifyTrace] at hcall
      exact hcall.1.symm
    · rw [h] at hcall
      simp [connectTrace, verifyTrace] at hcall
      exact hcall.1.symm
    · rw [h] at hcall
      simp [sendTrace, connectTrace, verifyTrace] at hcall
      exact hcall.1.symm
  · intro u pw hcreds
    rcases fetchHandler_trace_cases req env w with h | ⟨p, h⟩ | ⟨p, h⟩ | ⟨p, h⟩
    · rw [h] at hcreds; simp [emptyTrace] at hcreds
    · rw [h] at hcreds; simp [verifyTrace] at hcreds
    · rw [h] at hcreds
      simp [connectTrace, verifyTrace] at hcreds
      exact ⟨hcreds.1.symm, hcreds.2.symm⟩
    · rw [h] at hcreds
      simp [sendTrace, connectTrace, verifyTrace] at hcreds
      exact ⟨hcreds.1.symm, hcreds.2.symm⟩

/-- Witness for C8 (amended) at concrete requests: the preflight response
is the constant one, and a full run under `envA` used the secret
`secret-1`, the literal username and the password `password-1`. -/
theorem claim_c8_witness :
    (fetchHandler optionsReq envA worldOK).1 = optionsResponse ∧
    "secret-1" = envA.TURNSTILE_SECRET ∧
    ("feedback@beroea.tech" = mailRelayUsername ∧ "password-1" = envA.pass) :=
  ⟨(claim_c8_amended optionsReq envA worldOK).1 rfl,
   (claim_c8_amended (postReq anaBody) envA worldOK).2.1 "secret-1" "tok123" rfl,
   (claim_c8_amended (postReq anaBody) envA worldOK).2.2
     "feedback@beroea.tech" "password-1" rfl⟩

/-- Claim C9: with non-empty (truthy) `name`/`email`/`message`, a missing
or non-string `token` yields HTTP 400 `{error: "Invalid field types"}`
(not "Missing required fields"); an empty-string `token` passes all
validation and the verification service is called with `response` equal
to the empty string. -/
theorem claim_c9 :
    (∀ (req : Request) (env : Env) (w : World) (d : JVal) (nv ev mv tv : Option JVal),
      req.method = "POST" → req.jsonBody = .ok d →
      jsGet d "name" = .ok nv → jsGet d "email" = .ok ev →
      jsGet d "message" = .ok mv → jsGet d "token" = .ok tv →
      truthy nv = true → truthy ev = true → truthy mv = true →
      isStr tv = false →
      (fetchHandler req env w).1 = jsonResponse (errBody "Invalid field types") 400) ∧
    (∀ (req : Request) (env : Env) (w : World) (d : JVal) (ns es ms : String),
      req.method = "POST" → req.jsonBody = .ok d →
      jsGet d "name" = .ok (some (.jstr ns)) →
      jsGet d "email" = .ok (some (.jstr es)) →
      jsGet d "message" = .ok (some (.jstr ms)) →
      jsGet d "token" = .ok (some (.jstr "")) →
      ns ≠ "" → es ≠ "" → ms ≠ "" →
      ns.length ≤ 100 → ms.length ≤ 1000 →
      emailRegexTest es = true →
      validatePost d = .ok (.inr ⟨ns, es, ms, ""⟩) ∧
      (fetchHandler req env w).2.turnstileCall = some (env.TURNSTILE_SECRET, "")) := by
  constructor
  · intro req env w d nv ev mv tv hmq hb hn he hmsg ht htr her hmr hbad
    have hv := validatePost_badtype d nv ev mv tv hn he hmsg ht htr her hmr
      (Or.inr (Or.inr (Or.inr hbad)))
    have hpt := postTry_inl req env w d _ hb hv
    rw [fetchHandler_post_ok req env w _ _ hmq hpt]
  · intro req env w d ns es ms hmq hb hn he hmsg ht hne hee hme hnl hml hem
    have hv := validatePost_valid d ns es ms "" hn he hmsg ht hne hee hme hnl hml hem
    refine ⟨hv, ?_⟩
    rw [fetchHandler_trace_post req env w hmq]
    exact postTry_turnstileCall req env w d ⟨ns, es, ms, ""⟩ hb hv

/-- Witness for C9: a body lacking `token` is rejected as "Invalid field
types", and a body with `token := ""` reaches the verification call with
an empty `response` parameter. -/
theorem claim_c9_witness :
    (fetchHandler (postReq noTokenBody) envA worldOK).1 =
      jsonResponse (errBody "Invalid field types") 400 ∧
    (validatePost emptyTokenBody = .ok (.inr ⟨"Ana", "ana@example.com", "Hello", ""⟩) ∧
     (fetchHandler (postReq emptyTokenBody) envA worldOK).2.turnstileCall =
       some (envA.TURNSTILE_SECRET, "")) :=
  ⟨claim_c9.1 (postReq noTokenBody) envA worldOK noTokenBody
     (some (.jstr "Ana")) (some (.jstr "ana@example.com")) (some (.jstr "Hello")) none
     rfl rfl rfl rfl rfl rfl (by decide) (by decide) (by decide) rfl,
   claim_c9.2 (postReq emptyTokenBody) envA worldOK emptyTokenBody
     "Ana" "ana@example.com" "Hello" rfl rfl rfl rfl rfl rfl
     (by decide) (by decide) (by decide) (by decide) (by decide) (by decide)⟩

/-- Claim C10: every 400 and 403 response carries exactly the
`Content-Type: application/json` header (in particular no
`Access-Control-Allow-Origin`), and a response carrying an
`Access-Control-Allow-Origin` header is the OPTIONS preflight or a 200
success. -/
theorem claim_c10 (req : Request) (env : Env) (w : World) :
    (((fetchHandler req env w).1.status = 400 ∨ (fetchHandler req env w).1.status = 403) →
      (fetchHandler req env w).1.headers = [("Content-Type", "application/json")]) ∧
    (∀ v, ("Access-Control-Allow-Origin", v) ∈ (fetchHandler req env w).1.headers →
      req.method = "OPTIONS" ∨ (fetchHandler req env w).1.status = 200) := by
  rcases fetchHandler_resp_cases req env w with
    ⟨hm, h⟩ | h | h | h | h | h | h | ⟨d, h⟩ | h
  · rw [h]
    exact ⟨fun hc => by simp [optionsResponse] at hc, fun v hv => Or.inl hm⟩
  · rw [h]; exact ⟨fun _ => rfl, fun v hv => by simp [jsonResponse] at hv⟩
  · rw [h]; exact ⟨fun _ => rfl, fun v hv => by simp [jsonResponse] at hv⟩
  · rw [h]; exact ⟨fun _ => rfl, fun v hv => by simp [jsonResponse] at hv⟩
  · rw [h]; exact ⟨fun _ => rfl, fun v hv => by simp [jsonResponse] at hv⟩
  · rw [h]; exact ⟨fun _ => rfl, fun v hv => by simp [jsonResponse] at hv⟩
  · rw [h]; exact ⟨fun _ => rfl, fun v hv => by simp [jsonResponse] at hv⟩
  · rw [h]
    exact ⟨fun hc => by simp [successResponse] at hc, fun v hv => Or.inr rfl⟩
  · rw [h]
    exact ⟨fun hc => by simp [methodNotAllowedResponse] at hc,
           fun v hv => by simp [methodNotAllowedResponse] at hv⟩

/-- Witness for C10: the catch-all 400 response carries only the JSON
content type, and the preflight's `Access-Control-Allow-Origin` header is
accounted for by the OPTIONS branch. -/
theorem claim_c10_witness :
    (fetchHandler badJsonReq envA worldOK).1.headers =
      [("Content-Type", "application/json")] ∧
    (optionsReq.method = "OPTIONS" ∨
      (fetchHandler optionsReq envA worldOK).1.status = 200) :=
  ⟨(claim_c10 badJsonReq envA worldOK).1 (Or.inl rfl),
   (claim_c10 optionsReq envA worldOK).2 "https://beroea.tech" (by decide)⟩

end ContactWorker
